import Mathlib

/-!
Shallow embedding of the core of `NbodyIMRI` (files `NbodyIMRI/simulator.py` and
`NbodyIMRI/particles.py`) in Lean 4, together with theorems settling the frozen
claims about the natural-language specification of the repository.

Modelling conventions:
* Python floats are modelled as exact real numbers (`ℝ`); floating-point rounding
  is abstracted away.  `numpy` arrays over tracer particles are modelled as
  `List`s, with the vectorised arithmetic expressed elementwise
  (`List.map` / `List.zipWith`), which is exactly the elementwise semantics of the
  source's array expressions.
* 3-vectors (`np.zeros(3)` etc.) are `Fin 3 → ℝ`, with the pointwise instances.
* The gravitational constant `u.G_N` lives in the `units` module, which is not
  part of the two source files; since every claim treats it as an opaque positive
  scalar, it is passed to every function that reads it as an explicit first
  argument `G`.
* Fallible Python code (a `raise`, or a call with the wrong number of
  arguments) is modelled with `Except PyErr`.
* `particles.__init__` sets `dvdtBH1`, `dvdtBH2` to `None`; in every integrator
  path a force evaluation runs before any kick, so the `None` placeholder is
  modelled as the zero vector.
* The attributes `r1_min` / `r2_min` of the simulator are created (as `None`) by
  `run_simulation` before the step loop; they are modelled as `Option ℝ` fields
  initialised to `none`.
-/

noncomputable section

namespace NbodyIMRI

/-- A Python 3-vector (`np.zeros(3)` and friends): `Fin 3 → ℝ` with pointwise
algebraic structure. -/
abbrev Vec3 : Type := Fin 3 → ℝ

/-- `np.sum(dx**2, axis=-1)` for a single 3-vector: the sum of the squares of
the components. -/
def normSq (v : Vec3) : ℝ := v 0 ^ 2 + v 1 ^ 2 + v 2 ^ 2

/-- Runtime errors of the modelled Python fragments: `TypeError` (call with a
wrong number of arguments) and `ValueError` (explicit `raise ValueError`). -/
inductive PyErr : Type
  | typeError : PyErr
  | valueError : PyErr
deriving DecidableEq, Repr

/-- The state of `particles.particles` (particles.py), restricted to the fields
the integrator core reads or writes.  The unused inner/outer split
(`xDM_in`, …) and the spike bookkeeping fields are omitted. -/
structure Particles : Type where
  M_1 : ℝ
  M_2 : ℝ
  N_DM : ℕ
  M_DM : List ℝ
  xBH1 : Vec3
  vBH1 : Vec3
  xBH2 : Vec3
  vBH2 : Vec3
  xDM : List Vec3
  vDM : List Vec3
  dvdtBH1 : Vec3
  dvdtBH2 : Vec3
  dvdtDM : List Vec3
  dynamic_BH : Bool

/-- `particles.__init__(M_1, M_2, N_DM, M_DM, dynamic_BH)` (particles.py:23-62):
masses, `M_DM*np.ones(N_DM)`, zero positions/velocities, `None` acceleration
placeholders (modelled as zero, see the header comment). -/
def particles_mk (M_1 M_2 : ℝ) (N_DM : ℕ) (M_DM : ℝ) (dynamic_BH : Bool) : Particles where
  M_1 := M_1
  M_2 := M_2
  N_DM := N_DM
  M_DM := List.replicate N_DM M_DM
  xBH1 := 0
  vBH1 := 0
  xBH2 := 0
  vBH2 := 0
  xDM := List.replicate N_DM 0
  vDM := List.replicate N_DM 0
  dvdtBH1 := 0
  dvdtBH2 := 0
  dvdtDM := List.replicate N_DM 0
  dynamic_BH := dynamic_BH

/-- `particles.xstep(self, h)` (particles.py:74-78): drift all positions by
`velocity * h`; the primary only if `dynamic_BH`. -/
def Particles.xstep (p : Particles) (h : ℝ) : Particles :=
  { p with
    xBH1 := if p.dynamic_BH then p.xBH1 + h • p.vBH1 else p.xBH1
    xBH2 := p.xBH2 + h • p.vBH2
    xDM := List.zipWith (fun x v => x + h • v) p.xDM p.vDM }

/-- `particles.vstep(self, h)` (particles.py:80-84): kick all velocities by
`acceleration * h`; the primary only if `dynamic_BH`. -/
def Particles.vstep (p : Particles) (h : ℝ) : Particles :=
  { p with
    vBH1 := if p.dynamic_BH then p.vBH1 + h • p.dvdtBH1 else p.vBH1
    vBH2 := p.vBH2 + h • p.dvdtBH2
    vDM := List.zipWith (fun v a => v + h • a) p.vDM p.dvdtDM }

/-- A positional argument of a Python call site: either a float or some other
object (the integrator only ever forwards the `inds` object, of no numeric
type). -/
inductive PyArg : Type
  | num (x : ℝ) : PyArg
  | obj (o : Option Unit) : PyArg

/-- Calling `particles.xstep` with a list of positional arguments.
`def xstep(self, h)` accepts exactly one argument besides `self`
(particles.py:74); any other arity raises `TypeError`. -/
def callXstep (p : Particles) (args : List PyArg) : Except PyErr Particles :=
  match args with
  | [PyArg.num h] => .ok (p.xstep h)
  | _ => .error .typeError

/-- Calling `particles.vstep` with a list of positional arguments.
`def vstep(self, h)` accepts exactly one argument besides `self`
(particles.py:80); any other arity raises `TypeError`. -/
def callVstep (p : Particles) (args : List PyArg) : Except PyErr Particles :=
  match args with
  | [PyArg.num h] => .ok (p.vstep h)
  | _ => .error .typeError

/-- The state of `simulator.simulator` (simulator.py), restricted to the fields
the claims touch.  `check_state` hooks are opaque (`Option Unit`); the
background field is an optional acceleration function of position. -/
structure Sim : Type where
  p : Particles
  r_soft_sq2 : ℝ
  r_soft_sq1 : ℝ
  soft_method : String
  soft_method1 : String
  check_state : Option Unit
  background_field : Option (Vec3 → Vec3)
  r1_min : Option ℝ
  r2_min : Option ℝ

/-- `simulator.__init__(particle_set, r_soft_sq2, r_soft_sq1, soft_method,
check_state)` (simulator.py:56-68).  The stored particle set is a deep copy of
the argument (the aliasing content of that copy is treated separately by the
store-passing model below); `r_soft_sq1 < 0` defaults it to `r_soft_sq2`;
`soft_method1` is always `"uniform"`; no validation of `soft_method` happens
here. -/
def simulator_mk (particle_set : Particles) (r_soft_sq2 r_soft_sq1 : ℝ)
    (soft_method : String) (check_state : Option Unit) : Sim where
  p := particle_set
  r_soft_sq2 := r_soft_sq2
  r_soft_sq1 := if r_soft_sq1 < 0 then 1.0 * r_soft_sq2 else r_soft_sq1
  soft_method := soft_method
  soft_method1 := "uniform"
  check_state := check_state
  background_field := none
  r1_min := none
  r2_min := none

/-- The softening-kernel names `simulator.calc_acc` accepts without raising
(simulator.py:160-198). -/
def validKernels : List String :=
  ["plummer", "plummer2", "uniform_old", "uniform", "truncate", "empty_shell"]

/-- `simulator.calc_acc(self, M_eff, dx, r_sq, r_soft_sq, method)`
(simulator.py:160-200).  `dx` is the array of (unit) separation vectors, `r_sq`
the array of squared separations; the branches are the elementwise meaning of
the source's vectorised numpy expressions (the `np.sum(inds) >= 1` guards only
skip an empty masked assignment and do not change the elementwise value).
An unknown `method` raises `ValueError`. -/
def calc_acc (G M_eff : ℝ) (dx : List Vec3) (r_sq : List ℝ) (r_soft_sq : ℝ)
    (method : String) : Except PyErr (List Vec3) :=
  if method = "plummer" then
    -- acc_DM = -G_N*M_eff*dx*(r_sq + r_soft_sq)**-1
    .ok (List.zipWith (fun d rq => ((-(G * M_eff)) * (rq + r_soft_sq)⁻¹) • d) dx r_sq)
  else if method = "plummer2" then
    -- acc_DM = -G_N*M_eff*sqrt(r_sq)*(dx/2)*(2*r_sq + 5*r_soft_sq)*(r_sq + r_soft_sq)**(-5/2)
    .ok (List.zipWith
      (fun d rq =>
        ((-(G * M_eff)) * Real.sqrt rq * (1 / 2) * (2 * rq + 5 * r_soft_sq) *
          (rq + r_soft_sq) ^ (-(5 : ℝ) / 2)) • d) dx r_sq)
  else if method = "uniform_old" then
    -- x = sqrt(r_sq/r_soft_sq); Newtonian outside, polynomial profile for x < 1
    .ok (List.zipWith
      (fun d rq =>
        if Real.sqrt (rq / r_soft_sq) < 1 then
          ((-(G * M_eff)) * Real.sqrt (rq / r_soft_sq) *
            (8 - 9 * Real.sqrt (rq / r_soft_sq) + 2 * Real.sqrt (rq / r_soft_sq) ^ 3) /
            r_soft_sq) • d
        else ((-(G * M_eff)) * rq⁻¹) • d) dx r_sq)
  else if method = "uniform" then
    -- x = sqrt(r_sq/r_soft_sq); Newtonian outside, linear-in-x inside (x <= 1)
    .ok (List.zipWith
      (fun d rq =>
        if Real.sqrt (rq / r_soft_sq) ≤ 1 then
          ((-(G * M_eff)) * Real.sqrt (rq / r_soft_sq) / r_soft_sq) • d
        else ((-(G * M_eff)) * rq⁻¹) • d) dx r_sq)
  else if method = "truncate" then
    -- r_sq = np.clip(r_sq, r_soft_sq, 1e50); acc_DM = -G_N*M_eff*dx/r_sq
    .ok (List.zipWith
      (fun d rq => ((-(G * M_eff)) * (min (max rq r_soft_sq) 1e50)⁻¹) • d) dx r_sq)
  else if method = "empty_shell" then
    -- Newtonian outside, zeroed out for x < 1
    .ok (List.zipWith
      (fun d rq =>
        if Real.sqrt (rq / r_soft_sq) < 1 then (0 : Vec3)
        else ((-(G * M_eff)) * rq⁻¹) • d) dx r_sq)
  else
    -- raise ValueError("Invalid softening method:" + method)
    .error .valueError

/-- Effective mass of the primary used by `update_acceleration`
(simulator.py:213-218). -/
def M1_eff (p : Particles) : ℝ :=
  if p.dynamic_BH then p.M_1 else p.M_1 + p.M_2

/-- Effective mass of the secondary used by `update_acceleration`
(simulator.py:213-218). -/
def M2_eff (p : Particles) : ℝ :=
  if p.dynamic_BH then p.M_2 else p.M_1 * p.M_2 / (p.M_1 + p.M_2)

/-- `np.sum(np.atleast_2d(M_DM).T * acc, axis=0)`: the mass-weighted sum of the
tracer accelerations (simulator.py:256,262). -/
def wsum (m : List ℝ) (a : List Vec3) : Vec3 :=
  (List.zipWith (fun c v => c • v) m a).sum

/-- `xDM - xB`: separation vectors of all tracers from a body
(simulator.py:221,234). -/
def sep_vecs (xDM : List Vec3) (xB : Vec3) : List Vec3 :=
  xDM.map (fun x => x - xB)

/-- `np.sum(dx**2, axis=-1)`: squared separations (simulator.py:222,235). -/
def sep_r_sqs (xDM : List Vec3) (xB : Vec3) : List ℝ :=
  (sep_vecs xDM xB).map normSq

/-- `r = sqrt(r_sq)`: separations (simulator.py:223,236). -/
def sep_rs (xDM : List Vec3) (xB : Vec3) : List ℝ :=
  (sep_r_sqs xDM xB).map Real.sqrt

/-- `dx /= r`: unit separation vectors (simulator.py:224,237). -/
def unit_seps (xDM : List Vec3) (xB : Vec3) : List Vec3 :=
  List.zipWith (fun v r => r⁻¹ • v) (sep_vecs xDM xB) (sep_rs xDM xB)

/-- `acc_BH = -G_N*M2_eff*dx12*(r12_sq)**-1.5`, the unsoftened acceleration of
the primary towards the secondary (simulator.py:245-247). -/
def acc_BH_of (G : ℝ) (p : Particles) : Vec3 :=
  ((-(G * M2_eff p)) * (normSq (p.xBH1 - p.xBH2)) ^ (-(3 : ℝ) / 2)) •
    (p.xBH1 - p.xBH2)

/-- `simulator.update_acceleration(self)` (simulator.py:203-272), with the two
kernel names made explicit parameters (`m1` for the primary, `m2` for the
secondary); the wrapper `update_acceleration` below instantiates them from the
simulator's fields, exactly as the source reads `self.soft_method1` /
`self.soft_method`.  The source tests `self.p.M_2 > 0` twice (lines 233 and
261) with no intervening mutation of `M_2`; both tests are merged into the one
`if` below. -/
def update_acceleration_k (G : ℝ) (m1 m2 : String) (s : Sim) : Except PyErr Sim :=
  let p := s.p
  let M1e := M1_eff p
  let M2e := M2_eff p
  let r1sq := sep_r_sqs p.xDM p.xBH1
  let d1h := unit_seps p.xDM p.xBH1
  let r1_min' := if 0 < p.N_DM then (sep_rs p.xDM p.xBH1).min? else s.r1_min
  match calc_acc G M1e d1h r1sq s.r_soft_sq1 m1 with
  | .error e => .error e
  | .ok acc_DM1 =>
    if 0 < p.M_2 then
      let r2sq := sep_r_sqs p.xDM p.xBH2
      let d2h := unit_seps p.xDM p.xBH2
      let r2_min' := if 0 < p.N_DM then (sep_rs p.xDM p.xBH2).min? else s.r2_min
      match calc_acc G M2e d2h r2sq s.r_soft_sq2 m2 with
      | .error e => .error e
      | .ok acc_DM2 =>
        let acc_BH := acc_BH_of G p
        let dvdtBH1 :=
          if p.dynamic_BH then acc_BH - (1 / M1e) • wsum p.M_DM acc_DM1
          else (0 : Vec3)
        let dvdtBH2 := (-(M1e / M2e)) • acc_BH - (1 / M2e) • wsum p.M_DM acc_DM2
        let dvdtDM := List.zipWith (fun a b => a + b) acc_DM1 acc_DM2
        match s.background_field with
        | none =>
          .ok { s with
                p := { p with dvdtBH1 := dvdtBH1, dvdtBH2 := dvdtBH2, dvdtDM := dvdtDM }
                r1_min := r1_min', r2_min := r2_min' }
        | some f =>
          .ok { s with
                p := { p with
                       dvdtBH1 := dvdtBH1 + f p.xBH1
                       dvdtBH2 := dvdtBH2 + f p.xBH2
                       dvdtDM := List.zipWith (fun a x => a + f x) dvdtDM p.xDM }
                r1_min := r1_min', r2_min := r2_min' }
    else
      -- acc_BH = 0.0 and acc_DM2 = 0.0 (scalar zeros, broadcasting to zero vectors)
      let dvdtBH1 :=
        if p.dynamic_BH then (0 : Vec3) - (1 / M1e) • wsum p.M_DM acc_DM1
        else (0 : Vec3)
      let dvdtBH2 : Vec3 := 0
      let dvdtDM := acc_DM1
      match s.background_field with
      | none =>
        .ok { s with
              p := { p with dvdtBH1 := dvdtBH1, dvdtBH2 := dvdtBH2, dvdtDM := dvdtDM }
              r1_min := r1_min' }
      | some f =>
        .ok { s with
              p := { p with
                     dvdtBH1 := dvdtBH1 + f p.xBH1
                     dvdtBH2 := dvdtBH2 + f p.xBH2
                     dvdtDM := List.zipWith (fun a x => a + f x) dvdtDM p.xDM }
              r1_min := r1_min' }

/-- `simulator.update_acceleration` proper: the primary tracers use the kernel
`self.soft_method1`, the secondary tracers the kernel `self.soft_method`
(simulator.py:228,241). -/
def update_acceleration (G : ℝ) (s : Sim) : Except PyErr Sim :=
  update_acceleration_k G s.soft_method1 s.soft_method s

/-- Leapfrog coefficient `theta = 1/(2 - 2**(1/3))` (simulator.py:29). -/
def theta : ℝ := 1 / (2 - (2 : ℝ) ^ ((1 : ℝ) / 3))

/-- PEFRL coefficient `xi` (simulator.py:31). -/
def xi : ℝ := 0.1786178958448091

/-- PEFRL coefficient `lam` (simulator.py:32). -/
def lam : ℝ := -0.2123418310626054

/-- PEFRL coefficient `chi` (simulator.py:33). -/
def chi : ℝ := -0.6626458266981849e-1

/-- Convenience: replace the particle set of a simulator. -/
def Sim.withP (s : Sim) (p : Particles) : Sim := { s with p := p }

/-- `simulator.full_step(self, dt, method, inds)` (simulator.py:102-157).
The `"DKD"` and `"KDK"` branches invoke `self.p.xstep(…, inds)` and
`self.p.vstep(…, inds)` with two positional arguments (simulator.py:117-128),
while `particles.xstep` / `particles.vstep` accept exactly one
(particles.py:74,80); those calls go through the arity-checking wrappers
`callXstep` / `callVstep`.  The `"FR"` and `"PEFRL"` branches call the
one-argument form directly, as the source does.  A `method` matching no branch
falls through every `elif` and the function returns with the state unchanged. -/
def full_step (G : ℝ) (s : Sim) (dt : ℝ) (method : String) (inds : Option Unit) :
    Except PyErr Sim :=
  if method = "DKD" then do
    let p1 ← callXstep s.p [.num (0.5 * dt), .obj inds]
    let s1 ← update_acceleration G (s.withP p1)
    let p2 ← callVstep s1.p [.num (1.0 * dt), .obj inds]
    let p3 ← callXstep p2 [.num (0.5 * dt), .obj inds]
    .ok (s1.withP p3)
  else if method = "KDK" then do
    let s1 ← update_acceleration G s
    let p1 ← callVstep s1.p [.num (0.5 * dt), .obj inds]
    let p2 ← callXstep p1 [.num (1.0 * dt), .obj inds]
    let s2 ← update_acceleration G (s1.withP p2)
    let p3 ← callVstep s2.p [.num (0.5 * dt), .obj inds]
    .ok (s2.withP p3)
  else if method = "FR" then do
    let s1 ← update_acceleration G (s.withP (s.p.xstep (theta * dt / 2)))
    let s2 ← update_acceleration G
      (s1.withP (((s1.p.vstep (theta * dt)).xstep ((1 - theta) * dt / 2))))
    let s3 ← update_acceleration G
      (s2.withP (((s2.p.vstep ((1 - 2 * theta) * dt)).xstep ((1 - theta) * dt / 2))))
    .ok (s3.withP ((s3.p.vstep (theta * dt)).xstep (theta * dt / 2)))
  else if method = "PEFRL" then do
    let s1 ← update_acceleration G (s.withP (s.p.xstep (xi * dt)))
    let s2 ← update_acceleration G
      (s1.withP (((s1.p.vstep ((1 - 2 * lam) * dt / 2)).xstep (chi * dt))))
    let s3 ← update_acceleration G
      (s2.withP (((s2.p.vstep (lam * dt)).xstep ((1 - 2 * (chi + xi)) * dt))))
    let s4 ← update_acceleration G
      (s3.withP (((s3.p.vstep (lam * dt)).xstep (chi * dt))))
    .ok (s4.withP ((s4.p.vstep ((1 - 2 * lam) * dt / 2)).xstep (xi * dt)))
  else
    .ok s

/-- `simulator.calc_dt_opt(self, r, M, eta)` (simulator.py:72-73):
`eta * 2π * sqrt(r³/(G_N·M))`. -/
def calc_dt_opt (G r M eta : ℝ) : ℝ :=
  eta * (2 * Real.pi * Real.sqrt (r ^ 3 / (G * M)))

/-- `for i in range(n): self.full_step(dt_sub, method)` — `n`-fold iteration of
`full_step`, propagating any raised error (simulator.py:98-99). -/
def iterate_full_step (G : ℝ) (dt : ℝ) (method : String) : ℕ → Sim → Except PyErr Sim
  | 0, s => .ok s
  | n + 1, s => do
    let s' ← full_step G s dt method none
    iterate_full_step G dt method n s'

/-- `simulator.adaptive_step(self, dt, method, eta, N_sub_max)`
(simulator.py:75-99).  With no tracers, one plain `full_step`.  Otherwise,
if `r2_min` is `None` a force evaluation initialises it; `calc_dt_opt` applied
to a still-`None` `r2_min` (possible when `M_2 ≤ 0`) is a Python `TypeError`.
If `dt_opt ≥ dt` one full step of size `dt` is taken, else
`N_sub = int(np.ceil(dt/dt_opt))` clamped to `N_sub_max` equal sub-steps of
size `dt/N_sub`. -/
def adaptive_step (G : ℝ) (s : Sim) (dt : ℝ) (method : String) (eta : ℝ)
    (N_sub_max : ℤ) : Except PyErr Sim :=
  if s.p.N_DM = 0 then full_step G s dt method none
  else do
    let s ← match s.r2_min with
      | none => update_acceleration G s
      | some _ => .ok s
    match s.r2_min with
    | none => .error .typeError
    | some r2m =>
      let dt_opt := calc_dt_opt G r2m s.p.M_2 eta
      if dt_opt ≥ dt then full_step G s dt method none
      else
        let N_sub0 : ℤ := ⌈dt / dt_opt⌉
        let N_sub : ℤ := if N_sub0 > N_sub_max then N_sub_max else N_sub0
        let dt_sub := dt / (N_sub : ℝ)
        iterate_full_step G dt_sub method N_sub.toNat s

/-!
### Store-passing model of object aliasing

`simulator.__init__` stores `copy.deepcopy(particle_set)` (simulator.py:58).
Whether the caller's `particles` object can ever be mutated by the simulator is
a heap property, so the relevant slice of the Python heap is modelled
explicitly: a `Store` is the list of live `particles` objects, an object
reference is an index, and every in-place mutation performed by a stepping
method writes through the simulator's own reference `p_id`.  `deepcopy`
allocates a fresh object (a new index) holding an equal value.
-/

/-- The heap of live `particles` objects; an object reference is an index. -/
abbrev Store : Type := List Particles

/-- A simulator whose particle set lives in the store at index `p_id`; `sim.p`
caches the current value of that object. -/
structure SimH : Type where
  sim : Sim
  p_id : ℕ

/-- A default particle set (used only to give `List.getD` a value for
out-of-range reads, which a well-formed caller never performs). -/
def defaultP : Particles := particles_mk 0 0 0 0 true

/-- `simulator(particle_set, …)` at heap level: read the caller's object at
`cid`, deep-copy it into a fresh cell (`copy.deepcopy`, simulator.py:58) and
let the simulator's `p_id` reference that fresh cell. -/
def simulator_mkH (st : Store) (cid : ℕ) (r_soft_sq2 r_soft_sq1 : ℝ)
    (soft_method : String) (check_state : Option Unit) : Store × SimH :=
  let pc := st.getD cid defaultP
  (st ++ [pc],
   ⟨simulator_mk pc r_soft_sq2 r_soft_sq1 soft_method check_state, st.length⟩)

/-- A stepping call the caller can make on a simulator. -/
inductive OpH : Type
  | fullStepO (dt : ℝ) (method : String) (inds : Option Unit) : OpH
  | adaptiveStepO (dt : ℝ) (method : String) (eta : ℝ) (N_sub_max : ℤ) : OpH

/-- The `Except` outcome of one stepping call on a simulator. -/
def stepResult (G : ℝ) (h : SimH) (op : OpH) : Except PyErr Sim :=
  match op with
  | .fullStepO dt method inds => full_step G h.sim dt method inds
  | .adaptiveStepO dt method eta nmax => adaptive_step G h.sim dt method eta nmax

/-- Run one stepping call at heap level: all in-place mutations of the particle
set go through the simulator's own reference `p_id`.  (On a raised error the
partially updated object — still the cell at `p_id` — is not written back;
no cell other than `p_id` is ever touched either way.) -/
def runOpH (G : ℝ) (st : Store) (h : SimH) (op : OpH) : Store × SimH :=
  match stepResult G h op with
  | .ok s' => (st.set h.p_id s'.p, ⟨s', h.p_id⟩)
  | .error _ => (st, h)

/-- Run a sequence of stepping calls at heap level, returning the final heap. -/
def runOpsH (G : ℝ) (st : Store) (h : SimH) : List OpH → Store
  | [] => st
  | op :: ops =>
    let (st', h') := runOpH G st h op
    runOpsH G st' h' ops

/-!
## Helper lemmas
-/

/-- The mass-weighted sum distributes over an elementwise sum of two
equally-long acceleration lists. -/
theorem wsum_zipWith_add (m : List ℝ) (a b : List Vec3) (hab : a.length = b.length) :
    wsum m (List.zipWith (fun x y => x + y) a b) = wsum m a + wsum m b := by
  induction m generalizing a b with
  | nil => simp [wsum]
  | cons c ms ih =>
    cases a with
    | nil =>
      cases b with
      | nil => simp [wsum]
      | cons y ys => simp at hab
    | cons x xs =>
      cases b with
      | nil => simp at hab
      | cons y ys =>
        simp only [List.length_cons, Nat.add_right_cancel_iff] at hab
        simp only [List.zipWith_cons_cons, wsum, List.sum_cons]
        have := ih xs ys hab
        simp only [wsum] at this
        rw [this, smul_add]
        abel

/-- For a kernel name in `validKernels`, `calc_acc` succeeds and returns one
acceleration per (dx, r_sq) pair. -/
theorem calc_acc_ok_of_valid (G M_eff : ℝ) (dx : List Vec3) (r_sq : List ℝ)
    (r_soft_sq : ℝ) (method : String) (hm : method ∈ validKernels) :
    ∃ v, calc_acc G M_eff dx r_sq r_soft_sq method = .ok v ∧
      v.length = min dx.length r_sq.length := by
  simp only [validKernels, List.mem_cons, List.mem_singleton, List.not_mem_nil,
    or_false] at hm
  rcases hm with rfl | rfl | rfl | rfl | rfl | rfl <;>
    exact ⟨_, rfl, by simp⟩

/-- The vector algebra behind Newton's third law in `update_acceleration`:
with both effective masses nonzero, the body accelerations exactly cancel the
mass-weighted tracer accelerations. -/
theorem balance_core (M1 M2 : ℝ) (hM1 : M1 ≠ 0) (hM2 : M2 ≠ 0)
    (accBH S1 S2 : Vec3) :
    M1 • (accBH - (1 / M1) • S1) +
      M2 • ((-(M1 / M2)) • accBH - (1 / M2) • S2) + (S1 + S2) = 0 := by
  funext i
  simp only [Pi.add_apply, Pi.smul_apply, Pi.sub_apply, Pi.zero_apply,
    smul_eq_mul]
  field_simp
  ring

/-!
## The claims
-/

/-- **C1.**  The claim states that `full_step` with scheme `"DKD"` advances the
state through drift `dt/2` → force → kick `dt` → drift `dt/2` (and `"KDK"`
likewise).  In the code as written this is unreachable: the `"DKD"` and
`"KDK"` branches call `particles.xstep` / `particles.vstep` with the extra
positional argument `inds` (simulator.py:117-128), which those one-parameter
methods reject, so `"DKD"` raises `TypeError` at its very first stage and
`"KDK"` never returns normally either (its first kick raises after the initial
force evaluation).  The spec's stage sequences match the code's intent, the
calls' arity does not. -/
theorem C1_dkd_kdk_raise_type_error (G : ℝ) (s : Sim) (dt : ℝ) (inds : Option Unit) :
    full_step G s dt "DKD" inds = .error .typeError ∧
      (full_step G s dt "KDK" inds).isOk = false := by
  constructor
  · rfl
  · rw [full_step]
    simp only [reduceIte, String.reduceEq]
    cases hu : update_acceleration G s with
    | error e => simp [hu, Bind.bind, Except.bind, callVstep, Except.isOk, Except.toBool]
    | ok s1 => simp [hu, Bind.bind, Except.bind, callVstep, Except.isOk, Except.toBool]

/-- **C2.**  The claim states that an unknown scheme name is detected before
any stepping and that `full_step` never silently returns with the state
unchanged.  The code has no such check: a scheme name matching no branch falls
through every `elif` of `full_step` (simulator.py:116-157) and the method
returns `None` with the state untouched and no error raised.  Counterexample
at the concrete scheme name `"RK4"`. -/
theorem C2_unknown_scheme_counterexample :
    full_step 1 (simulator_mk (particles_mk 1 1 0 0 true) 0 0 "uniform" none)
        1 "RK4" none =
      .ok (simulator_mk (particles_mk 1 1 0 0 true) 0 0 "uniform" none) := by
  rfl

/-- **C2 (amended).**  For every state, timestep and scheme name outside
`{"DKD", "KDK", "FR", "PEFRL"}`, `full_step` performs no stage at all and
returns with the state unchanged and no error raised; no validation of the
scheme name happens at configuration time or anywhere else. -/
theorem C2_unknown_scheme_noop (G : ℝ) (s : Sim) (dt : ℝ) (method : String)
    (inds : Option Unit) (hm : method ∉ (["DKD", "KDK", "FR", "PEFRL"] : List String)) :
    full_step G s dt method inds = .ok s := by
  simp only [List.mem_cons, List.mem_singleton, List.not_mem_nil, or_false,
    not_or] at hm
  obtain ⟨h1, h2, h3, h4⟩ := hm
  rw [full_step, if_neg h1, if_neg h2, if_neg h3, if_neg h4]

/-- Witness for `C2_unknown_scheme_noop` at a concrete state and the concrete
unknown scheme name `"RK4"`. -/
theorem C2_unknown_scheme_noop_witness :
    full_step 1 (simulator_mk (particles_mk 1 1 2 0 true) 0 0 "plummer" none)
        1 "RK4" none =
      .ok (simulator_mk (particles_mk 1 1 2 0 true) 0 0 "plummer" none) :=
  C2_unknown_scheme_noop 1 _ 1 "RK4" none (by decide)

/-- **C5.**  If the primary body's `dynamic` flag is false, every drift
(`xstep`) and kick (`vstep`) stage leaves the primary's position and velocity
unchanged (particles.py:74-84), and the force evaluation's effective masses
are `M1_eff = M1 + M2` for the primary and the reduced mass
`M2_eff = M1·M2/(M1+M2)` for the secondary (simulator.py:213-218). -/
theorem C5_fixed_primary (p : Particles) (h : ℝ) (hd : p.dynamic_BH = false) :
    (p.xstep h).xBH1 = p.xBH1 ∧ (p.vstep h).vBH1 = p.vBH1 ∧
      M1_eff p = p.M_1 + p.M_2 ∧ M2_eff p = p.M_1 * p.M_2 / (p.M_1 + p.M_2) := by
  simp [Particles.xstep, Particles.vstep, M1_eff, M2_eff, hd]

/-- Witness for `C5_fixed_primary` at a concrete non-dynamic particle set. -/
theorem C5_fixed_primary_witness :
    ((particles_mk 3 2 1 1 false).xstep 7).xBH1 = (particles_mk 3 2 1 1 false).xBH1 ∧
      ((particles_mk 3 2 1 1 false).vstep 7).vBH1 = (particles_mk 3 2 1 1 false).vBH1 ∧
      M1_eff (particles_mk 3 2 1 1 false) =
        (particles_mk 3 2 1 1 false).M_1 + (particles_mk 3 2 1 1 false).M_2 ∧
      M2_eff (particles_mk 3 2 1 1 false) =
        (particles_mk 3 2 1 1 false).M_1 * (particles_mk 3 2 1 1 false).M_2 /
          ((particles_mk 3 2 1 1 false).M_1 + (particles_mk 3 2 1 1 false).M_2) :=
  C5_fixed_primary (particles_mk 3 2 1 1 false) 7 rfl

/-- **C10.**  Whatever `soft_method` is passed at construction, the kernel used
for primary–tracer interactions is always `"uniform"` (simulator.py:65-66),
and a force evaluation applies `"uniform"` to the primary's tracers and the
configured `soft_method` to the secondary's tracers (simulator.py:228,241). -/
theorem C10_primary_kernel_always_uniform (ps : Particles) (r2 r1 : ℝ)
    (m : String) (chk : Option Unit) (G : ℝ) :
    (simulator_mk ps r2 r1 m chk).soft_method1 = "uniform" ∧
      update_acceleration G (simulator_mk ps r2 r1 m chk) =
        update_acceleration_k G "uniform" m (simulator_mk ps r2 r1 m chk) :=
  ⟨rfl, rfl⟩

/-- **C7.**  The claim states that an unknown softening-kernel name fails at
construction time.  It does not: `simulator.__init__` (simulator.py:56-68)
performs no validation and happily stores the name `"cubic"`, and the
`ValueError` is raised only inside the first force evaluation
(`calc_acc`, simulator.py:197-198). -/
theorem C7_unknown_kernel_counterexample :
    (simulator_mk (particles_mk 1 1 1 1 true) 1 1 "cubic" none).soft_method = "cubic" ∧
      update_acceleration 1 (simulator_mk (particles_mk 1 1 1 1 true) 1 1 "cubic" none) =
        .error .valueError := by
  refine ⟨rfl, ?_⟩
  simp [update_acceleration, update_acceleration_k, calc_acc, simulator_mk,
    particles_mk]

/-- **C7 (amended).**  Constructing the simulator with an unknown kernel name
succeeds (the name is stored unvalidated); the `ValueError` is raised only at
the first force evaluation, and only on a path that reaches the secondary's
`calc_acc` call (`M_2 > 0`), since the primary's kernel is hardwired to
`"uniform"`. -/
theorem C7_unknown_kernel_late_error (ps : Particles) (r2 r1 : ℝ) (m : String)
    (chk : Option Unit) (G : ℝ) (hm : m ∉ validKernels) (hM2 : 0 < ps.M_2) :
    (simulator_mk ps r2 r1 m chk).soft_method = m ∧
      update_acceleration G (simulator_mk ps r2 r1 m chk) = .error .valueError := by
  refine ⟨rfl, ?_⟩
  simp only [validKernels, List.mem_cons, List.mem_singleton, List.not_mem_nil,
    or_false, not_or] at hm
  obtain ⟨n1, n2, n3, n4, n5, n6⟩ := hm
  simp [update_acceleration, update_acceleration_k, calc_acc, simulator_mk,
    hM2, n1, n2, n3, n4, n5, n6]

/-- Witness for `C7_unknown_kernel_late_error` at the concrete kernel name
`"bogus"`. -/
theorem C7_unknown_kernel_late_error_witness :
    (simulator_mk (particles_mk 2 3 1 1 true) 1 1 "bogus" none).soft_method = "bogus" ∧
      update_acceleration 1 (simulator_mk (particles_mk 2 3 1 1 true) 1 1 "bogus" none) =
        .error .valueError :=
  C7_unknown_kernel_late_error (particles_mk 2 3 1 1 true) 1 1 "bogus" none 1
    (by decide) (by norm_num [particles_mk])

/-- **C6.**  The claim states that the `"truncate"` kernel computes
`−G·M·dx/max(r², r_soft²)`, so that for every `r² ≥ r_soft²`, *however large*,
the acceleration is `−G·M·dx/r²`.  False: the source clips `r²` from *both*
sides, `np.clip(r_sq, r_soft_sq, 1e50)` (simulator.py:186), so at
`r² = 2·10⁵⁰ ≥ r_soft² = 1` the computed acceleration is `−G·M·dx/10⁵⁰`, not
`−G·M·dx/(2·10⁵⁰)`. -/
theorem C6_truncate_counterexample :
    calc_acc 1 1 [fun _ => (1 : ℝ)] [(2e50 : ℝ)] 1 "truncate" ≠
      .ok [((-((1 : ℝ) * 1)) * ((2e50 : ℝ))⁻¹) • (fun _ => (1 : ℝ))] := by
  intro h
  have hc : calc_acc 1 1 [fun _ => (1 : ℝ)] [(2e50 : ℝ)] 1 "truncate" =
      .ok [((-((1 : ℝ) * 1)) * (min (max (2e50 : ℝ) 1) 1e50)⁻¹) • (fun _ => (1 : ℝ))] := rfl
  rw [hc] at h
  have h2 := congrFun (List.head_eq_of_cons_eq (Except.ok.inj h)) 0
  rw [max_eq_left (by norm_num), min_eq_right (by norm_num)] at h2
  simp only [Pi.smul_apply, smul_eq_mul, mul_one] at h2
  norm_num at h2

/-- **C6 (amended).**  The `"truncate"` kernel computes
`−G·M·dx/r²_clamped` with `r²_clamped = min(max(r², r_soft²), 10⁵⁰)`; in
particular for every `r²` with `r_soft² ≤ r² ≤ 10⁵⁰` the acceleration equals
`−G·M·dx/r²`. -/
theorem C6_truncate_clip (G M : ℝ) (d : Vec3) (rq rs : ℝ) :
    calc_acc G M [d] [rq] rs "truncate" =
        .ok [((-(G * M)) * (min (max rq rs) 1e50)⁻¹) • d] ∧
      (rs ≤ rq → rq ≤ 1e50 →
        calc_acc G M [d] [rq] rs "truncate" = .ok [((-(G * M)) * rq⁻¹) • d]) := by
  refine ⟨rfl, fun h1 h2 => ?_⟩
  have hmm : min (max rq rs) (1e50 : ℝ) = rq := by
    rw [max_eq_left h1, min_eq_left h2]
  calc calc_acc G M [d] [rq] rs "truncate"
      = .ok [((-(G * M)) * (min (max rq rs) 1e50)⁻¹) • d] := rfl
    _ = .ok [((-(G * M)) * rq⁻¹) • d] := by rw [hmm]

/-- Witness for `C6_truncate_clip` at `r² = 4`, `r_soft² = 1`. -/
theorem C6_truncate_clip_witness :
    calc_acc 1 1 [fun _ => (1 : ℝ)] [(4 : ℝ)] 1 "truncate" =
      .ok [((-((1 : ℝ) * 1)) * ((4 : ℝ))⁻¹) • (fun _ => (1 : ℝ))] :=
  (C6_truncate_clip 1 1 (fun _ => (1 : ℝ)) 4 1).2 (by norm_num) (by norm_num)

/-- **C8.**  The `"uniform"` kernel is continuous at `r = r_soft`: at
`r² = r_soft²` the inside branch is selected (`x = √(r²/r_soft²) = 1 ≤ 1`) and
its value `−G·M·dx·x/r_soft²` at `x = 1` coincides with the outside branch's
Newtonian value `−G·M·dx/r²` at `r² = r_soft²` (simulator.py:177-183). -/
theorem C8_uniform_continuous_at_rsoft (G M : ℝ) (d : Vec3) (rs : ℝ) (h : 0 < rs) :
    calc_acc G M [d] [rs] rs "uniform" = .ok [((-(G * M)) * 1 / rs) • d] ∧
      ((-(G * M)) * 1 / rs) • d = ((-(G * M)) * rs⁻¹) • d := by
  constructor
  · have hx : Real.sqrt (rs / rs) = 1 := by rw [div_self h.ne', Real.sqrt_one]
    calc calc_acc G M [d] [rs] rs "uniform"
        = .ok [if Real.sqrt (rs / rs) ≤ 1 then
                ((-(G * M)) * Real.sqrt (rs / rs) / rs) • d
              else ((-(G * M)) * rs⁻¹) • d] := rfl
      _ = .ok [((-(G * M)) * 1 / rs) • d] := by rw [hx, if_pos le_rfl]
  · rw [mul_one, div_eq_mul_inv]

/-- Witness for `C8_uniform_continuous_at_rsoft` at `r_soft² = 1`. -/
theorem C8_uniform_continuous_at_rsoft_witness :
    calc_acc 1 1 [fun _ => (1 : ℝ)] [(1 : ℝ)] 1 "uniform" =
        .ok [((-((1 : ℝ) * 1)) * 1 / 1) • (fun _ => (1 : ℝ))] ∧
      ((-((1 : ℝ) * 1)) * 1 / 1) • (fun _ => (1 : ℝ) : Vec3) =
        ((-((1 : ℝ) * 1)) * (1 : ℝ)⁻¹) • (fun _ => (1 : ℝ)) :=
  C8_uniform_continuous_at_rsoft 1 1 (fun _ => (1 : ℝ)) 1 (by norm_num)

/-- **C4.**  After a force evaluation without a background field, with both
bodies dynamic and positive masses, the reaction acceleration added to each
body is the mass-weighted negative sum of its tracer accelerations
(simulator.py:256,262), so the total momentum flux vanishes exactly:
`M1_eff·dvdtBH1 + M2_eff·dvdtBH2 + Σᵢ mᵢ·dvdtDMᵢ = 0`.
(The claim leaves the primary's mass implicit; `0 < M_1` is required — with
`M_1 = 0` the division `1/M1_eff` in the source is already degenerate — and is
guaranteed by the spec's configuration invariant that non-positive masses are
invalid.) -/
theorem C4_momentum_balance (G : ℝ) (s : Sim)
    (hdyn : s.p.dynamic_BH = true) (hM1 : 0 < s.p.M_1) (hM2 : 0 < s.p.M_2)
    (hbg : s.background_field = none)
    (hm1 : s.soft_method1 ∈ validKernels) (hm2 : s.soft_method ∈ validKernels) :
    ∃ s' a1 a2,
      update_acceleration G s = .ok s' ∧
      calc_acc G (M1_eff s.p) (unit_seps s.p.xDM s.p.xBH1)
          (sep_r_sqs s.p.xDM s.p.xBH1) s.r_soft_sq1 s.soft_method1 = .ok a1 ∧
      calc_acc G (M2_eff s.p) (unit_seps s.p.xDM s.p.xBH2)
          (sep_r_sqs s.p.xDM s.p.xBH2) s.r_soft_sq2 s.soft_method = .ok a2 ∧
      s'.p.dvdtBH1 = acc_BH_of G s.p - (1 / s.p.M_1) • wsum s.p.M_DM a1 ∧
      s'.p.dvdtBH2 = (-(s.p.M_1 / s.p.M_2)) • acc_BH_of G s.p -
        (1 / s.p.M_2) • wsum s.p.M_DM a2 ∧
      s.p.M_1 • s'.p.dvdtBH1 + s.p.M_2 • s'.p.dvdtBH2 +
        wsum s.p.M_DM s'.p.dvdtDM = 0 := by
  obtain ⟨a1, ha1, hl1⟩ := calc_acc_ok_of_valid G (M1_eff s.p)
    (unit_seps s.p.xDM s.p.xBH1) (sep_r_sqs s.p.xDM s.p.xBH1)
    s.r_soft_sq1 s.soft_method1 hm1
  obtain ⟨a2, ha2, hl2⟩ := calc_acc_ok_of_valid G (M2_eff s.p)
    (unit_seps s.p.xDM s.p.xBH2) (sep_r_sqs s.p.xDM s.p.xBH2)
    s.r_soft_sq2 s.soft_method hm2
  have hM1e : M1_eff s.p = s.p.M_1 := by simp [M1_eff, hdyn]
  have hM2e : M2_eff s.p = s.p.M_2 := by simp [M2_eff, hdyn]
  have hlen : a1.length = a2.length := by
    simp only [unit_seps, sep_r_sqs, sep_vecs, sep_rs, List.length_zipWith,
      List.length_map, min_self] at hl1 hl2
    rw [hl1, hl2]
  refine ⟨{ s with
      p := { s.p with
        dvdtBH1 := if s.p.dynamic_BH then
            acc_BH_of G s.p - (1 / M1_eff s.p) • wsum s.p.M_DM a1
          else (0 : Vec3)
        dvdtBH2 := (-(M1_eff s.p / M2_eff s.p)) • acc_BH_of G s.p -
          (1 / M2_eff s.p) • wsum s.p.M_DM a2
        dvdtDM := List.zipWith (fun a b => a + b) a1 a2 }
      r1_min := if 0 < s.p.N_DM then (sep_rs s.p.xDM s.p.xBH1).min? else s.r1_min
      r2_min := if 0 < s.p.N_DM then (sep_rs s.p.xDM s.p.xBH2).min? else s.r2_min },
    a1, a2, ?_, ha1, ha2, ?_, ?_, ?_⟩
  · simp only [update_acceleration, update_acceleration_k, ha1, if_pos hM2,
      ha2, hbg]
  · simp [hdyn, hM1e]
  · rw [hM1e, hM2e]
  · simp only [hdyn, if_true]
    rw [wsum_zipWith_add s.p.M_DM a1 a2 hlen, hM1e, hM2e]
    exact balance_core s.p.M_1 s.p.M_2 hM1.ne' hM2.ne' (acc_BH_of G s.p)
      (wsum s.p.M_DM a1) (wsum s.p.M_DM a2)

/-- A concrete two-body + one-tracer particle set (tracer at `(1,1,1)`,
secondary at `(2,2,2)`, both bodies dynamic with unit masses). -/
def pW : Particles :=
  { particles_mk 1 1 1 1 true with
    xDM := [fun _ => (1 : ℝ)], xBH2 := fun _ => (2 : ℝ) }

/-- A concrete simulator over `pW` with the `"truncate"` secondary kernel. -/
def sW : Sim := simulator_mk pW 1 1 "truncate" none

/-- Witness for `C4_momentum_balance` at the concrete simulator `sW`. -/
theorem C4_momentum_balance_witness :
    ∃ s' a1 a2,
      update_acceleration 1 sW = .ok s' ∧
      calc_acc 1 (M1_eff sW.p) (unit_seps sW.p.xDM sW.p.xBH1)
          (sep_r_sqs sW.p.xDM sW.p.xBH1) sW.r_soft_sq1 sW.soft_method1 = .ok a1 ∧
      calc_acc 1 (M2_eff sW.p) (unit_seps sW.p.xDM sW.p.xBH2)
          (sep_r_sqs sW.p.xDM sW.p.xBH2) sW.r_soft_sq2 sW.soft_method = .ok a2 ∧
      s'.p.dvdtBH1 = acc_BH_of 1 sW.p - (1 / sW.p.M_1) • wsum sW.p.M_DM a1 ∧
      s'.p.dvdtBH2 = (-(sW.p.M_1 / sW.p.M_2)) • acc_BH_of 1 sW.p -
        (1 / sW.p.M_2) • wsum sW.p.M_DM a2 ∧
      sW.p.M_1 • s'.p.dvdtBH1 + sW.p.M_2 • s'.p.dvdtBH2 +
        wsum sW.p.M_DM s'.p.dvdtDM = 0 :=
  C4_momentum_balance 1 sW rfl (by norm_num [sW, pW, particles_mk, simulator_mk])
    (by norm_num [sW, pW, particles_mk, simulator_mk]) rfl (by decide) (by decide)

/-- **C3.**  With `N_DM > 0` tracers and a current `r2_min`, write
`dt_opt = eta·2π·√(r2_min³/(G·M2))` (`calc_dt_opt`, simulator.py:72-73).
If `dt_opt < dt`, `adaptive_step` executes exactly
`min(⌈dt/dt_opt⌉, N_sub_max)` equal sub-steps, each a complete `full_step` of
size `dt/N_sub`, and the number of sub-steps never exceeds `N_sub_max`; if
`dt_opt ≥ dt`, it executes exactly one `full_step` of size `dt`
(simulator.py:75-99). -/
theorem C3_adaptive_substep_count (G : ℝ) (s : Sim) (r2m dt eta : ℝ)
    (method : String) (N_sub_max : ℤ)
    (hN : s.p.N_DM ≠ 0) (hr : s.r2_min = some r2m) :
    (calc_dt_opt G r2m s.p.M_2 eta < dt →
        adaptive_step G s dt method eta N_sub_max =
          iterate_full_step G
            (dt / ((min ⌈dt / calc_dt_opt G r2m s.p.M_2 eta⌉ N_sub_max : ℤ) : ℝ))
            method (min ⌈dt / calc_dt_opt G r2m s.p.M_2 eta⌉ N_sub_max).toNat s ∧
        min ⌈dt / calc_dt_opt G r2m s.p.M_2 eta⌉ N_sub_max ≤ N_sub_max) ∧
      (dt ≤ calc_dt_opt G r2m s.p.M_2 eta →
        adaptive_step G s dt method eta N_sub_max = full_step G s dt method none) := by
  have hmin : (if (⌈dt / calc_dt_opt G r2m s.p.M_2 eta⌉ : ℤ) > N_sub_max then
      N_sub_max else ⌈dt / calc_dt_opt G r2m s.p.M_2 eta⌉) =
      min ⌈dt / calc_dt_opt G r2m s.p.M_2 eta⌉ N_sub_max := by
    omega
  constructor
  · intro hlt
    refine ⟨?_, min_le_right _ _⟩
    rw [adaptive_step, if_neg hN]
    simp only [hr, Bind.bind, Except.bind]
    rw [if_neg (not_le.mpr hlt), hmin]
  · intro hge
    rw [adaptive_step, if_neg hN]
    simp only [hr, Bind.bind, Except.bind]
    rw [if_pos hge]

/-- A concrete simulator for the `C3` witness: one tracer, unit masses, and a
current closest secondary separation `r2_min = 1`. -/
def sC3 : Sim := { simulator_mk pW 1 1 "truncate" none with r2_min := some 1 }

/-- Witness for `C3_adaptive_substep_count` at `G = M₂ = eta = r2_min = 1`,
`dt = 8π` (so `dt_opt = 2π < dt`) and `N_sub_max = 100`. -/
theorem C3_adaptive_substep_count_witness :
    (calc_dt_opt 1 1 sC3.p.M_2 1 < 8 * Real.pi →
        adaptive_step 1 sC3 (8 * Real.pi) "PEFRL" 1 100 =
          iterate_full_step 1
            ((8 * Real.pi) /
              ((min ⌈8 * Real.pi / calc_dt_opt 1 1 sC3.p.M_2 1⌉ 100 : ℤ) : ℝ))
            "PEFRL" (min ⌈8 * Real.pi / calc_dt_opt 1 1 sC3.p.M_2 1⌉ 100).toNat sC3 ∧
        min ⌈8 * Real.pi / calc_dt_opt 1 1 sC3.p.M_2 1⌉ 100 ≤ 100) ∧
      (8 * Real.pi ≤ calc_dt_opt 1 1 sC3.p.M_2 1 →
        adaptive_step 1 sC3 (8 * Real.pi) "PEFRL" 1 100 =
          full_step 1 sC3 (8 * Real.pi) "PEFRL" none) :=
  C3_adaptive_substep_count 1 sC3 1 (8 * Real.pi) 1 "PEFRL" 100 (by decide) rfl

/-- A single heap-level stepping call writes only through the simulator's own
reference `p_id` and never changes that reference. -/
theorem runOpH_frame (G : ℝ) (st : Store) (h : SimH) (op : OpH) (cid : ℕ)
    (hne : cid ≠ h.p_id) :
    ((runOpH G st h op).1)[cid]? = st[cid]? ∧ (runOpH G st h op).2.p_id = h.p_id := by
  rw [runOpH]
  cases stepResult G h op with
  | ok s' => exact ⟨List.getElem?_set_ne (fun hh => hne hh.symm), rfl⟩
  | error e => exact ⟨rfl, rfl⟩

/-- A sequence of heap-level stepping calls never touches a cell other than the
simulator's own reference. -/
theorem runOpsH_frame (G : ℝ) (ops : List OpH) :
    ∀ (st : Store) (h : SimH) (cid : ℕ), cid ≠ h.p_id →
      (runOpsH G st h ops)[cid]? = st[cid]? := by
  induction ops with
  | nil => intro st h cid _; rfl
  | cons op ops ih =>
    intro st h cid hne
    obtain ⟨h1, h2⟩ := runOpH_frame G st h op cid hne
    rw [runOpsH]
    rw [ih (runOpH G st h op).1 (runOpH G st h op).2 cid (h2 ▸ hne), h1]

/-- **C9.**  The simulator deep-copies the particle set it is given
(`copy.deepcopy`, simulator.py:58): in the heap model, construction allocates
a fresh cell for the copy, and every subsequent `full_step` / `adaptive_step`
call mutates only that fresh cell, so the caller's original `particles`
object is never mutated by any sequence of stepping calls. -/
theorem C9_deepcopy_protects_caller (G : ℝ) (st : Store) (cid : ℕ)
    (r2 r1 : ℝ) (m : String) (chk : Option Unit) (ops : List OpH)
    (hcid : cid < st.length) :
    (runOpsH G (simulator_mkH st cid r2 r1 m chk).1
        (simulator_mkH st cid r2 r1 m chk).2 ops)[cid]? = st[cid]? := by
  have hne : cid ≠ (simulator_mkH st cid r2 r1 m chk).2.p_id :=
    Nat.ne_of_lt hcid
  rw [runOpsH_frame G ops _ _ cid hne]
  exact List.getElem?_append_left hcid

/-- Witness for `C9_deepcopy_protects_caller`: a one-object heap, a simulator
built over that object, and a `"PEFRL"` full step followed by an adaptive
step. -/
theorem C9_deepcopy_protects_caller_witness :
    (runOpsH 1 (simulator_mkH [pW] 0 1 1 "truncate" none).1
        (simulator_mkH [pW] 0 1 1 "truncate" none).2
        [OpH.fullStepO 1 "PEFRL" none, OpH.adaptiveStepO 1 "PEFRL" 1 100])[0]? =
      [pW][0]? :=
  C9_deepcopy_protects_caller 1 [pW] 0 1 1 "truncate" none
    [OpH.fullStepO 1 "PEFRL" none, OpH.adaptiveStepO 1 "PEFRL" 1 100] (by decide)

end NbodyIMRI
